import Mathlib

/-!
Verification of the cable client core (wire codec, packet framing, session
engine policies) against a shallow embedding of the TypeScript sources
src/coder.ts, src/packet.ts and src/client.ts.

Conventions of the embedding:
* byte buffers are `List Nat` whose entries are kept below 256 by the write
  operations (writes mask with `% 256`, mirroring `Uint8Array` stores);
* JavaScript strings are represented by their UTF-8 byte sequences
  (`TextEncoder`/`TextDecoder` round-trip is the identity on them);
* JavaScript `Map` values are represented by association lists in insertion
  order; `Map.set` replaces the value of an existing key and otherwise
  appends, `Map.delete` removes the key;
* fallible reads return `Except CoderError`; thrown packet errors return
  `Except PacketError`.
-/

set_option maxRecDepth 8000

namespace Cable

/-- Errors of src/coder.ts (`CoderError.BufferTooShort`, `CoderError.VarintOverflow`). -/
inductive CoderError where
  | bufferTooShort
  | varintOverflow
deriving DecidableEq, Repr

/-- The `Coder` object of src/coder.ts: a byte buffer together with the
read/write cursor `pos`.  `buf` is the whole backing `Uint8Array`, whose
length is the current capacity (initially 256), not the number of bytes
written so far. -/
structure Coder where
  pos : Nat
  buf : List Nat
deriving DecidableEq, Repr

/-- `new Coder()` / `NewEncoder()`: cursor 0 over a zero-filled buffer of the
default capacity 256 (`cap && cap > 0 ? cap : 256`; every call site in the
repository uses the default). -/
def newCoder : Coder := ⟨0, List.replicate 256 0⟩

/-- The doubling loop of `ensureCapacity`: `while (newCapacity < newSize)
newCapacity *= 2`.  The extra `0 < cap` guard only serves termination; every
reachable capacity is at least 256. -/
def growCapacity (cap target : Nat) : Nat :=
  if h : 0 < cap ∧ cap < target then growCapacity (cap * 2) target else cap
termination_by target - cap
decreasing_by omega

/-- `Coder.ensureCapacity`: grow the buffer geometrically (appending zero
bytes, as a fresh `Uint8Array` is zero-initialised) until `pos + additional`
fits. -/
def ensureCapacity (additional : Nat) (c : Coder) : Coder :=
  let newSize := c.pos + additional
  if c.buf.length < newSize then
    let newCapacity := growCapacity (c.buf.length * 2) newSize
    ⟨c.pos, c.buf ++ List.replicate (newCapacity - c.buf.length) 0⟩
  else c

/-- `Coder.bytes()`: returns the backing buffer itself, i.e. the full
capacity, not only the `pos` bytes written so far. -/
def bytes (c : Coder) : List Nat := c.buf

/-- `Coder.writeBytes`: ensure capacity, then `buf.set(p, pos)` (splice `p`
over positions `pos..pos+p.length`); entries are masked like `Uint8Array`
stores. -/
def writeBytes (p : List Nat) (c : Coder) : Coder :=
  let c := ensureCapacity p.length c
  ⟨c.pos + p.length,
   c.buf.take c.pos ++ p.map (· % 256) ++ c.buf.drop (c.pos + p.length)⟩

/-- One `this.buf[this.pos++] = b` store (the value is masked by the
`Uint8Array`). -/
def storeByte (c : Coder) (b : Nat) : Coder :=
  ⟨c.pos + 1, c.buf.set c.pos (b % 256)⟩

/-- `Coder.writeUInt8`: `buf[pos++] = i & 0xff`. -/
def writeUInt8 (i : Nat) (c : Coder) : Coder :=
  storeByte (ensureCapacity 1 c) i

/-- `Coder.writeUInt16`: big-endian, `(i >> 8) & 0xff` then `i & 0xff`.  The
shift-and-mask agrees with division and remainder on the legal range of the
argument. -/
def writeUInt16 (i : Nat) (c : Coder) : Coder :=
  let c := ensureCapacity 2 c
  storeByte (storeByte c (i / 2 ^ 8)) i

/-- `Coder.writeUInt32`: four big-endian bytes.  For every `i < 2^32` the
JavaScript `(i >> k) & 0xff` (which passes through `ToInt32`) equals
`(i / 2^k) % 256`, which is the form used here. -/
def writeUInt32 (i : Nat) (c : Coder) : Coder :=
  let c := ensureCapacity 4 c
  storeByte (storeByte (storeByte (storeByte c (i / 2 ^ 24)) (i / 2 ^ 16)) (i / 2 ^ 8)) i

/-- `Coder.writeUInt64`: eight big-endian bytes via exact `BigInt` shifts. -/
def writeUInt64 (i : Nat) (c : Coder) : Coder :=
  let c := ensureCapacity 8 c
  storeByte (storeByte (storeByte (storeByte
    (storeByte (storeByte (storeByte (storeByte c
      (i / 2 ^ 56)) (i / 2 ^ 48)) (i / 2 ^ 40)) (i / 2 ^ 32))
      (i / 2 ^ 24)) (i / 2 ^ 16)) (i / 2 ^ 8)) i

/-- `Coder.writeInt64`: `writeUInt64(i & 0xffffffffffffffffn)`; the `BigInt`
mask is the two's-complement residue, i.e. `i mod 2^64` as a nonnegative
value. -/
def writeInt64 (i : Int) (c : Coder) : Coder :=
  writeUInt64 (i.emod (2 ^ 64)).toNat c

/-- `Coder.writeBool`: `writeUInt8(b ? 1 : 0)`. -/
def writeBool (b : Bool) (c : Coder) : Coder :=
  writeUInt8 (if b then 1 else 0) c

/-- The byte sequence produced by `writeVarint`'s loop (7 payload bits per
byte, high bit = continuation).  The JavaScript bitwise forms `(i & 0x7f)`
and `i >>= 7` agree with `% 128` and `/ 128` for `0 ≤ i < 2^31`, which covers
every length this codebase ever writes. -/
def varintBytes (i : Nat) : List Nat :=
  if h : 128 ≤ i then (i % 128 + 128) :: varintBytes (i / 128) else [i % 128]
termination_by i
decreasing_by exact Nat.div_lt_self (by omega) (by omega)

/-- Sequential `buf[pos++] = b` stores with no further capacity check, as in
the body of `writeVarint` after its single `ensureCapacity(10)`. -/
def storeBytesNoGrow (bs : List Nat) (c : Coder) : Coder :=
  bs.foldl storeByte c

/-- `Coder.writeVarint`: `ensureCapacity(10)` then the LEB128 loop. -/
def writeVarint (i : Nat) (c : Coder) : Coder :=
  storeBytesNoGrow (varintBytes i) (ensureCapacity 10 c)

/-- `Coder.writeData`: varint length followed by the raw bytes. -/
def writeData (d : List Nat) (c : Coder) : Coder :=
  writeBytes d (writeVarint d.length c)

/-- `Coder.writeString`: `writeData` of the UTF-8 bytes of the string (the
string is represented by those bytes). -/
def writeString (s : List Nat) (c : Coder) : Coder :=
  writeData s c

/-- `Coder.writeUInt8Map`: one byte `m.size`, then each `(u8 key, string
value)` pair in insertion order. -/
def writeUInt8Map (m : List (Nat × List Nat)) (c : Coder) : Coder :=
  m.foldl (fun c kv => writeString kv.2 (writeUInt8 kv.1 c)) (writeUInt8 m.length c)

/-- `Coder.readBytes`: empty result for `l = 0`, `BufferTooShort` when fewer
than `l` bytes remain before the end of the backing buffer, otherwise the
next `l` bytes. -/
def readBytes (l : Nat) (c : Coder) : Except CoderError (List Nat × Coder) :=
  if l = 0 then .ok ([], c)
  else if c.buf.length < c.pos + l then .error .bufferTooShort
  else .ok ((c.buf.drop c.pos).take l, ⟨c.pos + l, c.buf⟩)

/-- `Coder.readUInt8`. -/
def readUInt8 (c : Coder) : Except CoderError (Nat × Coder) :=
  if c.buf.length < c.pos + 1 then .error .bufferTooShort
  else .ok (c.buf.getD c.pos 0, ⟨c.pos + 1, c.buf⟩)

/-- `Coder.readUInt16`: `(bytes[0] << 8) | bytes[1]`. -/
def readUInt16 (c : Coder) : Except CoderError (Nat × Coder) :=
  (readBytes 2 c).map fun bc =>
    (((bc.1.getD 0 0) <<< 8) ||| bc.1.getD 1 0, bc.2)

/-- The value of a 32-bit pattern as a JavaScript signed 32-bit integer. -/
def int32OfPat (n : Nat) : Int :=
  if n % 2 ^ 32 < 2 ^ 31 then ((n % 2 ^ 32 : Nat) : Int)
  else ((n % 2 ^ 32 : Nat) : Int) - 2 ^ 32

/-- `Coder.readUInt32`: `(b0 << 24) | (b1 << 16) | (b2 << 8) | b3`.  The
JavaScript `|` yields a signed 32-bit integer, so the result is negative
whenever the top bit of `b0` is set. -/
def readUInt32 (c : Coder) : Except CoderError (Int × Coder) :=
  (readBytes 4 c).map fun bc =>
    (int32OfPat (((bc.1.getD 0 0) <<< 24) ||| ((bc.1.getD 1 0) <<< 16) |||
      ((bc.1.getD 2 0) <<< 8) ||| bc.1.getD 3 0), bc.2)

/-- `Coder.readUInt64`: eight big-endian bytes combined with exact `BigInt`
shifts. -/
def readUInt64 (c : Coder) : Except CoderError (Nat × Coder) :=
  (readBytes 8 c).map fun bc =>
    (((bc.1.getD 0 0) <<< 56) ||| ((bc.1.getD 1 0) <<< 48) |||
     ((bc.1.getD 2 0) <<< 40) ||| ((bc.1.getD 3 0) <<< 32) |||
     ((bc.1.getD 4 0) <<< 24) ||| ((bc.1.getD 5 0) <<< 16) |||
     ((bc.1.getD 6 0) <<< 8) ||| bc.1.getD 7 0, bc.2)

/-- `Coder.readInt64`: `const u = this.readUInt64(); return u;` — the
unsigned value is returned unchanged, with no two's-complement sign
conversion. -/
def readInt64 (c : Coder) : Except CoderError (Int × Coder) :=
  (readUInt64 c).map fun uc => ((uc.1 : Int), uc.2)

/-- `Coder.readBool`: exactly the byte value 1 decodes to `true`. -/
def readBool (c : Coder) : Except CoderError (Bool × Coder) :=
  (readUInt8 c).map fun uc => (uc.1 == 1, uc.2)

/-- The body of `readVarint`'s bounded loop: at most 10 bytes, each
contributing its low 7 bits at the current shift; a clear high bit stops the
loop, advancing `pos` past the consumed bytes.  The JavaScript accumulation
`result |= (byte & 0x7f) << shift` agrees with this form for results below
`2^31`. -/
def readVarintLoop (c : Coder) (result shift i : Nat) : Except CoderError (Nat × Coder) :=
  if h : i < 10 then
    if c.buf.length ≤ c.pos + i then .error .bufferTooShort
    else
      let byte := c.buf.getD (c.pos + i) 0
      let result := result ||| ((byte % 128) <<< shift)
      if byte % 256 < 128 then .ok (result, ⟨c.pos + (i + 1), c.buf⟩)
      else readVarintLoop c result (shift + 7) (i + 1)
  else .error .varintOverflow
termination_by 10 - i

/-- `Coder.readVarint`. -/
def readVarint (c : Coder) : Except CoderError (Nat × Coder) :=
  readVarintLoop c 0 0 0

/-- `Coder.readData`: a varint length then that many raw bytes. -/
def readData (c : Coder) : Except CoderError (List Nat × Coder) :=
  (readVarint c).bind fun lc => readBytes lc.1 lc.2

/-- `Coder.readString` (the decoded string is represented by its UTF-8
bytes). -/
def readString (c : Coder) : Except CoderError (List Nat × Coder) :=
  readData c

/-- `Map.set k v` on an association list: replace the value of an existing
key, otherwise append the pair. -/
def assocSet (k : Nat) (v : List Nat) : List (Nat × List Nat) → List (Nat × List Nat)
  | [] => [(k, v)]
  | kv :: rest => if kv.1 = k then (k, v) :: rest else kv :: assocSet k v rest

/-- The loop of `readUInt8Map`: `count` iterations of `(readUInt8,
readString)` inserted with `Map.set`. -/
def readUInt8MapLoop (acc : List (Nat × List Nat)) (c : Coder) :
    Nat → Except CoderError (List (Nat × List Nat) × Coder)
  | 0 => .ok (acc, c)
  | n + 1 =>
    (readUInt8 c).bind fun kc =>
    (readString kc.2).bind fun vc =>
    readUInt8MapLoop (assocSet kc.1 vc.1 acc) vc.2 n

/-- `Coder.readUInt8Map`: a one-byte count then that many `(u8, string)`
pairs. -/
def readUInt8Map (c : Coder) : Except CoderError (List (Nat × List Nat) × Coder) :=
  (readUInt8 c).bind fun nc => readUInt8MapLoop [] nc.2 nc.1

/-- `Coder.readAll`: `BufferTooShort` when the cursor has reached the end of
the backing buffer, otherwise everything from the cursor to the end of the
buffer, leaving the cursor at the end. -/
def readAll (c : Coder) : Except CoderError (List Nat × Coder) :=
  if c.buf.length ≤ c.pos then .error .bufferTooShort
  else .ok (c.buf.drop c.pos, ⟨c.buf.length, c.buf⟩)

/-- `NewDecoder(bytes)`: a fresh default-capacity coder, `writeBytes(bytes)`,
then the cursor reset to 0.  When `bytes` is shorter than the capacity the
backing buffer keeps its zero padding after the data. -/
def newDecoder (bs : List Nat) : Coder :=
  ⟨0, (writeBytes bs newCoder).buf⟩

/-! Packet layer (src/packet.ts). -/

/-- `MID_LEN`: largest payload length of the short (2-byte) header. -/
def MID_LEN : Nat := 0x3ff

/-- `MAX_LEN`: largest encodable payload length. -/
def MAX_LEN : Nat := 0x3fffffff

/-- Errors of src/packet.ts (`PacketError`). -/
inductive PacketError where
  | invalidReadLen
  | unknownPacketType
  | packetSizeTooLarge
  | messageKindTooLarge
deriving DecidableEq, Repr

/-- An error escaping `encode`/`decode`: either a `PacketError` of the
framing layer or a `CoderError` thrown by a read. -/
inductive DecodeErr where
  | packetErr (e : PacketError)
  | coderErr (e : CoderError)
deriving DecidableEq, Repr

/-- The nine packet kinds of src/packet.ts, with their fields.  Property maps
are `(u8 key, string value)` association lists; strings are their UTF-8
bytes. -/
inductive Packet where
  | connect (version : Nat) (userID clientID password : List Nat)
      (props : List (Nat × List Nat))
  | connack (code : Nat) (props : List (Nat × List Nat))
  | message (id : Nat) (qos : Nat) (dup : Bool) (kind : Nat) (payload : List Nat)
      (props : List (Nat × List Nat))
  | messack (id : Nat) (props : List (Nat × List Nat))
  | request (id : Nat) (method : List Nat) (body : List Nat)
      (props : List (Nat × List Nat))
  | response (id : Nat) (code : Nat) (body : List Nat)
      (props : List (Nat × List Nat))
  | ping (props : List (Nat × List Nat))
  | pong (props : List (Nat × List Nat))
  | close (code : Nat)
deriving DecidableEq, Repr

/-- The `PacketType` tag of each packet kind (`CONNECT = 0` … `CLOSE = 15`). -/
def Packet.typeTag : Packet → Nat
  | .connect .. => 0
  | .connack .. => 1
  | .message .. => 2
  | .messack .. => 3
  | .request .. => 4
  | .response .. => 5
  | .ping .. => 6
  | .pong .. => 7
  | .close .. => 15

/-- `Packet.writeTo` of the base class: serialize the property map. -/
def writeProps (props : List (Nat × List Nat)) (c : Coder) : Coder :=
  writeUInt8Map props c

/-- The `writeTo` methods of the nine packet classes, in source field order.
`Message.writeTo` throws `MessageKindTooLarge` when `kind > kindMask` before
writing anything; `Close.writeTo` writes only the code and no property
map. -/
def Packet.writeTo : Packet → Coder → Except PacketError Coder
  | .connect v u cl pw props, c =>
    .ok (writeProps props (writeString pw (writeString cl (writeString u (writeUInt8 v c)))))
  | .connack code props, c => .ok (writeProps props (writeUInt8 code c))
  | .message id qos dup kind payload props, c =>
    if 0x3f < kind then .error .messageKindTooLarge
    else
      let flags := (if 0 < qos then 0x80 else 0) ||| (if dup then 0x40 else 0) ||| kind
      .ok (writeBytes payload (writeProps props (writeUInt16 id (writeUInt8 flags c))))
  | .messack id props, c => .ok (writeProps props (writeUInt16 id c))
  | .request id method body props, c =>
    .ok (writeBytes body (writeProps props (writeString method (writeUInt16 id c))))
  | .response id code body props, c =>
    .ok (writeBytes body (writeProps props (writeUInt8 code (writeUInt16 id c))))
  | .ping props, c => .ok (writeProps props c)
  | .pong props, c => .ok (writeProps props c)
  | .close code, c => .ok (writeUInt8 code c)

/-- `coder.encode(p)`: `writeTo` on a fresh encoder, then `bytes()` — which
returns the whole capacity buffer, not just the bytes written. -/
def coderEncode (p : Packet) : Except PacketError (List Nat) :=
  (p.writeTo newCoder).map bytes

/-- The `while (len > 0) { bs.push(len & 0xff); len >>= 8 }` loop of `pack`,
before the `reverse`: the little-endian bytes of `len`. -/
def lenBytesLE (len : Nat) : List Nat :=
  if h : len = 0 then [] else len % 256 :: lenBytesLE (len / 256)
termination_by len
decreasing_by exact Nat.div_lt_self (by omega) (by omega)

/-- The header computation of `pack` as a function of the packet type tag and
the payload length: `PacketSizeTooLarge` above `MAX_LEN`; a 2-byte short
header up to `MID_LEN`; otherwise the big-endian length bytes, with the most
significant byte fused into the low 2 bits of byte 0 when it is at most 3 and
a fresh leading byte otherwise, and the count of extra bytes in bits 2–3 of
byte 0. -/
def packHeader (t len : Nat) : Except PacketError (List Nat) :=
  if MAX_LEN < len then .error .packetSizeTooLarge
  else if MID_LEN < len then
    let bs := (lenBytesLE len).reverse
    let header := if 3 < bs.headD 0 then 0 :: bs else bs
    .ok ((((t <<< 4) ||| ((header.length - 2) <<< 2) ||| header.headD 0) % 256) :: header.tail)
  else .ok [((t <<< 4) ||| (len >>> 8)) % 256, len % 256]

/-- `pack(p)`: encode the payload, then build the header from its length. -/
def pack (p : Packet) : Except DecodeErr (List Nat × List Nat) :=
  match coderEncode p with
  | .error e => .error (.packetErr e)
  | .ok data =>
    match packHeader p.typeTag data.length with
    | .error e => .error (.packetErr e)
    | .ok header => .ok (header, data)

/-- `encode(p)`: header concatenated with the payload bytes. -/
def packetEncode (p : Packet) : Except DecodeErr (List Nat) :=
  (pack p).map fun hd => hd.1 ++ hd.2

/-- The `for (i < byteCount) length = (length << 8) | bytes[2+i]` loop of
`decode`. -/
def extendLen (bs : List Nat) (len0 byteCount : Nat) : Nat :=
  (List.range byteCount).foldl (fun l i => (l <<< 8) ||| bs.getD (2 + i) 0) len0

/-- The length-extraction logic at the head of `decode`: at least 2 bytes;
`byteCount` from bits 2–3 of byte 0; a 10-bit base length from the low 2 bits
of byte 0 and byte 1; `byteCount` further bytes extending the length on the
high side; returns the decoded payload length and the payload start
offset. -/
def readHeaderLen (bs : List Nat) : Except PacketError (Nat × Nat) :=
  if bs.length < 2 then .error .invalidReadLen
  else
    let byteCount := ((bs.getD 0 0) >>> 2) &&& 3
    let len0 := (((bs.getD 0 0) &&& 3) <<< 8) ||| bs.getD 1 0
    if 0 < byteCount then
      if bs.length < 2 + byteCount then .error .invalidReadLen
      else .ok (extendLen bs len0 byteCount, 2 + byteCount)
    else .ok (len0, 2)

/-- `Connect.readFrom`. -/
def connectReadFrom (data : List Nat) : Except CoderError Packet :=
  (readUInt8 (newDecoder data)).bind fun vc =>
  (readString vc.2).bind fun uc =>
  (readString uc.2).bind fun cc =>
  (readString cc.2).bind fun pc =>
  (readUInt8Map pc.2).map fun mc =>
  .connect vc.1 uc.1 cc.1 pc.1 mc.1

/-- `Connack.readFrom`. -/
def connackReadFrom (data : List Nat) : Except CoderError Packet :=
  (readUInt8 (newDecoder data)).bind fun cc =>
  (readUInt8Map cc.2).map fun mc =>
  .connack cc.1 mc.1

/-- `Message.readFrom`: flags byte, u16 id, property map, then `readAll` for
the payload; qos is bit 7 of the flags, dup bit 6, kind the low 6 bits. -/
def messageReadFrom (data : List Nat) : Except CoderError Packet :=
  (readUInt8 (newDecoder data)).bind fun fc =>
  (readUInt16 fc.2).bind fun ic =>
  (readUInt8Map ic.2).bind fun mc =>
  (readAll mc.2).map fun pc =>
  .message ic.1 ((fc.1 &&& 0x80) >>> 7) (fc.1 &&& 0x40 != 0) (fc.1 &&& 0x3f) pc.1 mc.1

/-- `Messack.readFrom`. -/
def messackReadFrom (data : List Nat) : Except CoderError Packet :=
  (readUInt16 (newDecoder data)).bind fun ic =>
  (readUInt8Map ic.2).map fun mc =>
  .messack ic.1 mc.1

/-- `Request.readFrom`: u16 id, method string, property map, then `readAll`
for the body. -/
def requestReadFrom (data : List Nat) : Except CoderError Packet :=
  (readUInt16 (newDecoder data)).bind fun ic =>
  (readString ic.2).bind fun sc =>
  (readUInt8Map sc.2).bind fun mc =>
  (readAll mc.2).map fun bc =>
  .request ic.1 sc.1 bc.1 mc.1

/-- `Response.readFrom`: u16 id, u8 code, property map, then `readAll` for
the body. -/
def responseReadFrom (data : List Nat) : Except CoderError Packet :=
  (readUInt16 (newDecoder data)).bind fun ic =>
  (readUInt8 ic.2).bind fun cc =>
  (readUInt8Map cc.2).bind fun mc =>
  (readAll mc.2).map fun bc =>
  .response ic.1 cc.1 bc.1 mc.1

/-- `Ping.readFrom` (base class: property map only). -/
def pingReadFrom (data : List Nat) : Except CoderError Packet :=
  (readUInt8Map (newDecoder data)).map fun mc => .ping mc.1

/-- `Pong.readFrom`. -/
def pongReadFrom (data : List Nat) : Except CoderError Packet :=
  (readUInt8Map (newDecoder data)).map fun mc => .pong mc.1

/-- `Close.readFrom`: the close code only. -/
def closeReadFrom (data : List Nat) : Except CoderError Packet :=
  (readUInt8 (newDecoder data)).map fun cc => .close cc.1

/-- `unpack(header, data)`: dispatch on the high nibble of byte 0;
`UnknownPacketType` for an unassigned tag. -/
def unpack (header data : List Nat) : Except DecodeErr Packet :=
  let dispatch : (List Nat → Except CoderError Packet) → Except DecodeErr Packet :=
    fun rd => match rd data with
      | .ok p => .ok p
      | .error e => .error (.coderErr e)
  match (header.getD 0 0) >>> 4 with
  | 0 => dispatch connectReadFrom
  | 1 => dispatch connackReadFrom
  | 2 => dispatch messageReadFrom
  | 3 => dispatch messackReadFrom
  | 4 => dispatch requestReadFrom
  | 5 => dispatch responseReadFrom
  | 6 => dispatch pingReadFrom
  | 7 => dispatch pongReadFrom
  | 15 => dispatch closeReadFrom
  | _ => .error (.packetErr .unknownPacketType)

/-- `decode(bytes)`: extract the length and payload start, check the frame
carries that many payload bytes, then `unpack` the header and payload
slices. -/
def packetDecode (bs : List Nat) : Except DecodeErr Packet :=
  match readHeaderLen bs with
  | .error e => .error (.packetErr e)
  | .ok (len, dataStart) =>
    if bs.length < dataStart + len then .error (.packetErr .invalidReadLen)
    else unpack (bs.take dataStart) ((bs.drop dataStart).take len)

/-! Session engine (src/client.ts). -/

/-- The id computed by `Client.send` for a QoS-1 message after `counter`
earlier QoS-1 sends: `this._messageId++ / (2 ** 16 - 1)` — an exact division
of the counter by 65535, modelled over the rationals. -/
def assignMessageId (counter : Nat) : ℚ := (counter : ℚ) / (2 ^ 16 - 1)

/-- The id computed by `Client.request` after `counter` earlier requests:
`this._requestId++ / (2 ** 16 - 1)`. -/
def assignRequestId (counter : Nat) : ℚ := (counter : ℚ) / (2 ^ 16 - 1)

/-- Errors rejected to callers of the send path in src/client.ts:
`CableError.NotReady`, `CableError.MessageTimeout`, and the plain
`Error('max retries exceeded')` thrown by `_sendMessage1`. -/
inductive ClientErr where
  | notReady
  | messageTimeout
  | maxRetriesExceeded
deriving DecidableEq, Repr

/-- What a caller of `_sendMessage` can observe for one QoS-1 attempt: the
Messack arrived (resolve), the per-attempt timer fired
(`CableError.MessageTimeout`), or some other rejection. -/
inductive Outcome where
  | ack
  | timeout
  | fail (e : ClientErr)
deriving DecidableEq, Repr

/-- The mutable fields of the message object that `_sendMessage1` touches:
the wire id it was built with and the dup flag (set on retransmission). -/
structure SendMsg where
  id : ℚ
  dup : Bool
deriving DecidableEq, Repr

/-- `_sendMessage1(p, retries)`, with the result of each underlying
`_sendMessage` attempt given by `outcome`: throw `'max retries exceeded'`
once `retries > messageMaxRetry`; otherwise send, and on
`CableError.MessageTimeout` set `p.dup = true` and recurse with
`retries + 1`, re-throwing any other rejection.  Returns the list of packets
handed to `_sendMessage` in order together with the final result. -/
def sendMessage1 (outcome : Nat → Outcome) (maxRetry : Nat) (p : SendMsg)
    (retries : Nat) : List SendMsg × Except ClientErr Unit :=
  if maxRetry < retries then ([], .error .maxRetriesExceeded)
  else
    match outcome retries with
    | .ack => ([p], .ok ())
    | .fail e => ([p], .error e)
    | .timeout =>
      let rest := sendMessage1 outcome maxRetry { p with dup := true } (retries + 1)
      (p :: rest.1, rest.2)
termination_by maxRetry + 1 - retries
decreasing_by omega

/-- The attempt schedule in which no Messack ever arrives before the
per-attempt timer: every `_sendMessage` rejects with
`CableError.MessageTimeout`. -/
def allTimeout : Nat → Outcome := fun _ => .timeout

/-- The two correlation tables of the client, by key (`Map.set` on a fresh id
appends it; values are the completion callbacks, irrelevant to key
membership). -/
structure Tasks where
  requestTasks : List Nat
  messageTasks : List Nat
deriving DecidableEq, Repr

/-- The tables of a freshly constructed client. -/
def emptyTasks : Tasks := ⟨[], []⟩

/-- `Map.set` of a key on one table: append when absent (an existing key only
has its value replaced). -/
def keySet (id : Nat) (l : List Nat) : List Nat :=
  if id ∈ l then l else l ++ [id]

/-- `Map.delete` of a key. -/
def keyDelete (id : Nat) (l : List Nat) : List Nat :=
  l.filter (fun k => k ≠ id)

/-- `Client.request`: `this._requestTasks.set(p.id, ...)` before the frame is
written. -/
def requestInsert (id : Nat) (t : Tasks) : Tasks :=
  { t with requestTasks := keySet id t.requestTasks }

/-- `Client._sendMessage` (qos 1): `this._messageTasks.set(p.id, ...)` before
the frame is written. -/
def messageInsert (id : Nat) (t : Tasks) : Tasks :=
  { t with messageTasks := keySet id t.messageTasks }

/-- The `setTimeout` body armed by `Client.request`:
`this._requestTasks.delete(p.id)` then reject `RequestTimeout`. -/
def requestTimeoutFire (id : Nat) (t : Tasks) : Tasks :=
  { t with requestTasks := keyDelete id t.requestTasks }

/-- The `setTimeout` body armed by `Client._sendMessage` for a QoS-1 send:
the source runs `this._requestTasks.delete(p.id)` — it deletes from the
request table, not from `_messageTasks` — then rejects `MessageTimeout`. -/
def messageTimeoutFire (id : Nat) (t : Tasks) : Tasks :=
  { t with requestTasks := keyDelete id t.requestTasks }

/-- The `Status` enum of src/client.ts. -/
inductive CStatus where
  | unknown
  | opening
  | opened
  | closing
  | closed
deriving DecidableEq, Repr

/-- The status of a client together with the sequence of values passed to the
handler's `onStatus` callback (the only call site of `onStatus` is the tail
of `setStatus`). -/
structure StatusState where
  status : CStatus
  onStatusCalls : List CStatus
deriving DecidableEq, Repr

/-- `Client.setStatus`: return immediately when the status is unchanged;
otherwise store the new status, run the per-status housekeeping (timers,
socket, tables — none of which touches `_status` or calls `onStatus`), and
invoke `handler.onStatus(status)` exactly once. -/
def setStatus (s : CStatus) (st : StatusState) : StatusState :=
  if st.status = s then st
  else ⟨s, st.onStatusCalls ++ [s]⟩

/-- A client as constructed: status `Unknown`, no `onStatus` call yet. -/
def newStatusState : StatusState := ⟨.unknown, []⟩

/-- A sequence of `setStatus` calls. -/
def runSetStatuses (calls : List CStatus) (st : StatusState) : StatusState :=
  calls.foldl (fun st s => setStatus s st) st

/-- The `Retrier` of src/client.ts.  The backoff strategy is its `next`
function (delays in seconds, as exact rationals); `filter` is the optional
retry-filter predicate. -/
structure Retrier where
  limit : Nat
  count : Nat
  backoff : Nat → ℚ
  filter : Option (Nat → Bool)

/-- Whether `this.filter && this.filter(e)` is truthy. -/
def filterFires (r : Retrier) (e : Nat) : Bool :=
  match r.filter with
  | some f => f e
  | none => false

/-- `Retrier.shouldRetry(e)`: `(0, false)` when the filter fires; `(0,
false)` when `count >= limit`; otherwise increment `count` and return
`(backoff.next(count) * 1000, true)` with the incremented count.  Returned
together with the updated retrier state. -/
def shouldRetry (r : Retrier) (e : Nat) : (ℚ × Bool) × Retrier :=
  if filterFires r e then ((0, false), r)
  else if r.limit ≤ r.count then ((0, false), r)
  else ((r.backoff (r.count + 1) * 1000, true), { r with count := r.count + 1 })

/-! Helper lemmas. -/

/-- All-timeout runs of `_sendMessage1`: with `n` retries left in the budget,
the packet is handed to `_sendMessage` once as given and then `n` more times
with `dup = true`, after which the loop throws `'max retries exceeded'`. -/
lemma sendMessage1_allTimeout (n : Nat) : ∀ (retries : Nat) (p : SendMsg),
    sendMessage1 allTimeout (retries + n) p retries
      = (p :: List.replicate n { p with dup := true }, .error .maxRetriesExceeded) := by
  induction n with
  | zero =>
    intro retries p
    rw [sendMessage1, if_neg (by omega)]
    rw [sendMessage1, if_pos (by omega)]
    simp [allTimeout]
  | succ n ih =>
    intro retries p
    rw [sendMessage1, if_neg (by omega)]
    have h1 : retries + (n + 1) = (retries + 1) + n := by omega
    rw [h1, ih (retries + 1) { p with dup := true }]
    simp [allTimeout, List.replicate_succ]

/-- `setStatus` always leaves the requested status in place. -/
lemma setStatus_status (s : CStatus) (st : StatusState) : (setStatus s st).status = s := by
  unfold setStatus
  by_cases h : st.status = s
  · rw [if_pos h, ← h]
  · rw [if_neg h]

/-- A second `setStatus` with the same value is a no-op. -/
lemma setStatus_idem (s : CStatus) (st : StatusState) :
    setStatus s (setStatus s st) = setStatus s st := by
  show (if (setStatus s st).status = s then setStatus s st
        else ⟨s, (setStatus s st).onStatusCalls ++ [s]⟩) = setStatus s st
  rw [if_pos (setStatus_status s st)]

/-- Invariant tying the `onStatus` call log to the current status: adjacent
logged values differ and the last logged value (if any) is the current
status. -/
def StatusInv (st : StatusState) : Prop :=
  List.Chain' (· ≠ ·) st.onStatusCalls ∧
    (st.onStatusCalls = [] ∨ st.onStatusCalls.getLast? = some st.status)

lemma setStatus_inv (s : CStatus) (st : StatusState) (h : StatusInv st) :
    StatusInv (setStatus s st) := by
  unfold setStatus
  by_cases hs : st.status = s
  · rw [if_pos hs]; exact h
  · rw [if_neg hs]
    obtain ⟨hc, hl⟩ := h
    constructor
    · rw [List.chain'_append]
      refine ⟨hc, List.chain'_singleton s, ?_⟩
      intro x hx y hy
      rcases hl with hnil | hlast
      · rw [hnil] at hx; simp at hx
      · rw [hlast] at hx
        simp at hx hy
        subst hx
        subst hy
        exact hs
    · right
      simp

lemma runSetStatuses_inv (calls : List CStatus) (st : StatusState) (h : StatusInv st) :
    StatusInv (runSetStatuses calls st) := by
  induction calls generalizing st with
  | nil => exact h
  | cons a rest ih => exact ih (setStatus a st) (setStatus_inv a st h)

lemma runSetStatuses_append (l1 l2 : List CStatus) (st : StatusState) :
    runSetStatuses (l1 ++ l2) st = runSetStatuses l2 (runSetStatuses l1 st) :=
  List.foldl_append _ _ _ _

/-- The length-byte loop output for `MID_LEN + 1 = 1024` (little-endian). -/
lemma lenBytesLE_midSucc : lenBytesLE (MID_LEN + 1) = [0, 4] := by
  simp [lenBytesLE, MID_LEN]

/-- The length-byte loop output for 65535 (little-endian). -/
lemma lenBytesLE_65535 : lenBytesLE 65535 = [255, 255] := by
  simp [lenBytesLE]

/-- The length-byte loop output for `MAX_LEN` (little-endian). -/
lemma lenBytesLE_maxLen : lenBytesLE MAX_LEN = [255, 255, 255, 63] := by
  simp [lenBytesLE, MAX_LEN]

/-! The claims. -/

/-- C1: packet-level decode of packet-level encode is claimed to return the
original packet, byte-for-byte in the trailing payload.  On the code it does
not: `Coder.bytes()` returns the whole 256-byte capacity buffer, so the
frame's payload length counts the unwritten zero padding and
`Message.readFrom`'s `readAll` hands that padding back as part of the
payload.  Here the spec's own QoS-1 example decodes to a 252-byte payload
instead of the original 4 bytes. -/
theorem c1_message_roundtrip_pads_payload :
    (packetEncode (.message 456 1 true 60 [81, 111, 83, 49] [])).bind packetDecode
      = .ok (.message 456 1 true 60 ([81, 111, 83, 49] ++ List.replicate 248 0) [])
    ∧ [81, 111, 83, 49] ++ List.replicate 248 0 ≠ [81, 111, 83, 49] := by
  constructor
  · rfl
  · decide

/-- C2: `Close(AuthFailure)` is claimed to encode to the 3 bytes
`[0xF0, 0x01, 0x04]`.  The code instead produces a 258-byte frame
`[0xF1, 0x00, 0x04, 0, ..., 0]`: the payload handed to `pack` is the whole
256-byte encoder capacity buffer, so the short header announces length 256,
not 1. -/
theorem c2_close_encode_padded :
    packetEncode (.close 4) = .ok (0xf1 :: 0x00 :: 0x04 :: List.replicate 255 0)
    ∧ (0xf1 :: 0x00 :: 0x04 :: List.replicate 255 0 : List Nat) ≠ [0xf0, 0x01, 0x04] := by
  constructor
  · rfl
  · decide

/-- C3: for each length in {0, 1, MID_LEN, MID_LEN+1, 65535, MAX_LEN} the
header built by `pack`'s framing logic decodes, through `decode`'s
length-extraction logic, back to exactly that length (with the expected
payload offset), for every packet type tag; and any payload length above
`MAX_LEN` fails with `PacketSizeTooLarge`. -/
theorem c3_framing_lengths :
    (∀ t len, MAX_LEN < len → packHeader t len = .error .packetSizeTooLarge)
    ∧ (∀ t, t < 16 →
        (packHeader t 0).bind readHeaderLen = .ok (0, 2)
        ∧ (packHeader t 1).bind readHeaderLen = .ok (1, 2)
        ∧ (packHeader t MID_LEN).bind readHeaderLen = .ok (MID_LEN, 2)
        ∧ (packHeader t (MID_LEN + 1)).bind readHeaderLen = .ok (MID_LEN + 1, 3)
        ∧ (packHeader t 65535).bind readHeaderLen = .ok (65535, 3)
        ∧ (packHeader t MAX_LEN).bind readHeaderLen = .ok (MAX_LEN, 5)) := by
  constructor
  · intro t len h
    unfold packHeader
    rw [if_pos h]
  · intro t ht
    interval_cases t <;>
      refine ⟨rfl, rfl, rfl, ?_, ?_, ?_⟩ <;>
      unfold packHeader <;>
      rw [if_neg (by decide), if_pos (by decide)] <;>
      first
        | (rw [lenBytesLE_midSucc]; rfl)
        | (rw [lenBytesLE_65535]; rfl)
        | (rw [lenBytesLE_maxLen]; rfl)

/-- Witness for C3 at concrete inputs. -/
theorem c3_framing_lengths_witness :
    packHeader 2 (MAX_LEN + 1) = .error .packetSizeTooLarge
    ∧ (packHeader 2 (MID_LEN + 1)).bind readHeaderLen = .ok (MID_LEN + 1, 3) :=
  ⟨c3_framing_lengths.1 2 (MAX_LEN + 1) (by norm_num [MAX_LEN]),
   (c3_framing_lengths.2 2 (by norm_num)).2.2.2.1⟩

/-- C4: the primitive codec round-trip is claimed for every value in each
type's legal range.  The code breaks it: `readInt64` returns the unsigned
64-bit value with no two's-complement conversion, so the i64 value -1 (which
the repository's own coder test exercises) reads back as 2^64 - 1; and
`readUInt32` builds its result with signed 32-bit `|`, so the u32 value 2^31
reads back as -2^31. -/
theorem c4_readInt64_readUInt32_broken :
    (readInt64 (newDecoder (bytes (writeInt64 (-1) newCoder)))).map Prod.fst
      = .ok (18446744073709551615 : Int)
    ∧ (18446744073709551615 : Int) ≠ -1
    ∧ (readUInt32 (newDecoder (bytes (writeUInt32 (2 ^ 31) newCoder)))).map Prod.fst
      = .ok (-2147483648 : Int)
    ∧ (-2147483648 : Int) ≠ ((2 ^ 31 : Nat) : Int) := by
  refine ⟨rfl, by decide, rfl, by decide⟩

/-- C5: ids for QoS-1 sends and requests are claimed to be successive 16-bit
values, counter mod 2^16.  The code computes `counter++ / (2 ** 16 - 1)`: a
division, so the second QoS-1 send gets the non-integer id 1/65535 rather
than 1, and likewise for requests. -/
theorem c5_id_is_division_not_counter :
    assignMessageId 0 = 0
    ∧ assignMessageId 1 = 1 / 65535
    ∧ assignMessageId 1 ≠ 1
    ∧ (¬ ∃ k : ℕ, assignMessageId 1 = (k : ℚ))
    ∧ assignRequestId 1 ≠ 1 := by
  refine ⟨by norm_num [assignMessageId], by norm_num [assignMessageId], by
    norm_num [assignMessageId], ?_, by norm_num [assignRequestId]⟩
  rintro ⟨k, hk⟩
  rw [assignMessageId] at hk
  norm_num at hk
  have h1 : (1 : ℚ) = (k : ℚ) * 65535 := by
    field_simp at hk
    linarith
  have h2 : (1 : ℕ) = k * 65535 := by exact_mod_cast h1
  omega

/-- C6 (counterexample): with every Messack lost, the caller's promise is
claimed to finally fail with `MessageTimeout`; on the code (default
`messageMaxRetry = 5`) it fails with the distinct error
`'max retries exceeded'` thrown by `_sendMessage1`. -/
theorem c6_counterexample_final_error :
    (sendMessage1 allTimeout 5 ⟨0, false⟩ 0).2 ≠ .error .messageTimeout
    ∧ (sendMessage1 allTimeout 5 ⟨0, false⟩ 0).2 = .error .maxRetriesExceeded := by
  have h0 := sendMessage1_allTimeout 5 0 ⟨0, false⟩
  rw [Nat.zero_add] at h0
  have h1 : (sendMessage1 allTimeout 5 ⟨0, false⟩ 0).2
      = .error ClientErr.maxRetriesExceeded := by rw [h0]
  exact ⟨by rw [h1]; simp, h1⟩

/-- C6 (amended): a QoS-1 send whose Messacks never arrive is sent once as
given and retransmitted exactly `messageMaxRetry` further times, each
retransmission carrying `dup = true` and the unchanged id; when the budget is
exhausted the caller's promise fails with the generic
`Error('max retries exceeded')` (not `CableError.MessageTimeout`). -/
theorem c6_amended_retry_trace (maxRetry : Nat) (id : ℚ) :
    sendMessage1 allTimeout maxRetry ⟨id, false⟩ 0
      = (⟨id, false⟩ :: List.replicate maxRetry ⟨id, true⟩, .error .maxRetriesExceeded) := by
  have h := sendMessage1_allTimeout maxRetry 0 ⟨id, false⟩
  rw [Nat.zero_add] at h
  exact h

/-- C7: a timed-out operation's entry is claimed to leave its own table.  For
requests it does; for a timed-out QoS-1 send the timer body runs
`this._requestTasks.delete(p.id)` — the wrong table — so the entry inserted
into `message_tasks` stays behind as a stale completion callback. -/
theorem c7_message_timeout_stale_entry :
    (messageTimeoutFire 7 (messageInsert 7 emptyTasks)).messageTasks = [7]
    ∧ 7 ∈ (messageTimeoutFire 7 (messageInsert 7 emptyTasks)).messageTasks
    ∧ (requestTimeoutFire 5 (requestInsert 5 emptyTasks)).requestTasks = [] := by
  refine ⟨rfl, by decide, rfl⟩

/-- C8: `Retrier.shouldRetry` returns `(0, false)` when the configured filter
accepts the reason; otherwise `(0, false)` when the count has reached the
limit; otherwise it increments the count and returns
`(backoff.next(count) * 1000, true)`. -/
theorem c8_shouldRetry_cases (r : Retrier) (e : Nat) :
    (filterFires r e = true → shouldRetry r e = ((0, false), r))
    ∧ (filterFires r e = false → r.limit ≤ r.count → shouldRetry r e = ((0, false), r))
    ∧ (filterFires r e = false → r.count < r.limit →
        shouldRetry r e
          = ((r.backoff (r.count + 1) * 1000, true), { r with count := r.count + 1 })) := by
  unfold shouldRetry
  refine ⟨fun h => ?_, fun h hl => ?_, fun h hl => ?_⟩
  · rw [if_pos h]
  · rw [if_neg (by rw [h]; exact Bool.false_ne_true), if_pos hl]
  · rw [if_neg (by rw [h]; exact Bool.false_ne_true), if_neg (by omega)]

/-- A retrier with a filter that accepts everything. -/
def retrierFilterAll : Retrier := ⟨3, 0, fun n => (n : ℚ), some fun _ => true⟩

/-- A retrier with no filter whose budget is exhausted. -/
def retrierExhausted : Retrier := ⟨2, 2, fun n => (n : ℚ), none⟩

/-- A retrier with no filter and budget remaining. -/
def retrierFresh : Retrier := ⟨3, 1, fun n => (n : ℚ), none⟩

/-- Witness for C8 on three concrete retriers, one per clause. -/
theorem c8_shouldRetry_cases_witness :
    shouldRetry retrierFilterAll 0 = ((0, false), retrierFilterAll)
    ∧ shouldRetry retrierExhausted 0 = ((0, false), retrierExhausted)
    ∧ shouldRetry retrierFresh 0 = ((2 * 1000, true), { retrierFresh with count := 2 }) :=
  ⟨(c8_shouldRetry_cases retrierFilterAll 0).1 rfl,
   (c8_shouldRetry_cases retrierExhausted 0).2.1 rfl (by norm_num [retrierExhausted]),
   by
    have h := (c8_shouldRetry_cases retrierFresh 0).2.2 rfl (by norm_num [retrierFresh])
    rw [h]
    norm_num [retrierFresh]⟩

/-- C9: `setStatus` with the current status changes nothing (so `onStatus` is
not invoked); an actual change appends exactly one `onStatus` call with the
new status; consequently no two consecutive `onStatus` invocations carry the
same value. -/
theorem c9_setStatus_no_duplicate_onStatus (calls : List CStatus) (s : CStatus) :
    runSetStatuses (calls ++ [s, s]) newStatusState = runSetStatuses (calls ++ [s]) newStatusState
    ∧ ((runSetStatuses (calls ++ [s]) newStatusState).onStatusCalls
          = (runSetStatuses calls newStatusState).onStatusCalls
        ∨ (runSetStatuses (calls ++ [s]) newStatusState).onStatusCalls
          = (runSetStatuses calls newStatusState).onStatusCalls ++ [s])
    ∧ List.Chain' (· ≠ ·) ((runSetStatuses calls newStatusState).onStatusCalls) := by
  refine ⟨?_, ?_, ?_⟩
  · rw [show calls ++ [s, s] = (calls ++ [s]) ++ [s] by simp,
      runSetStatuses_append, runSetStatuses_append calls [s]]
    show setStatus s (setStatus s (runSetStatuses calls newStatusState))
      = setStatus s (runSetStatuses calls newStatusState)
    exact setStatus_idem s _
  · rw [runSetStatuses_append calls [s]]
    show (setStatus s (runSetStatuses calls newStatusState)).onStatusCalls = _ ∨
      (setStatus s (runSetStatuses calls newStatusState)).onStatusCalls = _
    unfold setStatus
    by_cases h : (runSetStatuses calls newStatusState).status = s
    · rw [if_pos h]; left; rfl
    · rw [if_neg h]; right; rfl
  · exact (runSetStatuses_inv calls newStatusState ⟨List.chain'_nil, Or.inl rfl⟩).1

/-- C10: `readAll` at a cursor that has reached the end of the backing buffer
throws `BufferTooShort`; otherwise it returns the nonempty remainder — it
never returns a zero-length result. -/
theorem c10_readAll_never_empty (c : Coder) :
    (readAll c = .error .bufferTooShort ∧ c.buf.length ≤ c.pos)
    ∨ ∃ bs c2, readAll c = .ok (bs, c2) ∧ bs ≠ [] ∧ c.pos < c.buf.length := by
  by_cases h : c.buf.length ≤ c.pos
  · left
    exact ⟨by unfold readAll; rw [if_pos h], h⟩
  · right
    refine ⟨c.buf.drop c.pos, ⟨c.buf.length, c.buf⟩, by unfold readAll; rw [if_neg h], ?_, by omega⟩
    intro hnil
    rw [List.drop_eq_nil_iff] at hnil
    omega

end Cable
